import Mathlib

/-!
Verification of the BigCTY parser (`notctyparser/bigcty.py`) against its
specification.  The Python code is shallowly embedded: lines and tokens are
lists of characters, the insertion-ordered Python dict is an association
list with replace-in-place update, Python exceptions are modelled with
`Except`/`Option`, and floating-point values (which the program only parses,
negates and stores, never computes with) are modelled as exact rationals.
-/

/-- Characters of a Python string. -/
abbrev Chars := List Char

/-- Character list of a Lean string literal. -/
def str (s : String) : Chars := s.data

/-- Python `str.isspace` for the ASCII whitespace characters that occur in
CTY.DAT files (space, tab, newline, vertical tab, form feed, carriage
return). -/
def pyIsSpace (c : Char) : Bool :=
  c == ' ' || c == '\t' || c == '\n' || c == '\x0b' || c == '\x0c' || c == '\r'

/-- Drop every leading occurrence of character `ch` (left part of
Python `str.strip(ch)`). -/
def lstripChar (ch : Char) (l : Chars) : Chars := l.dropWhile (· == ch)

/-- Drop every trailing occurrence of character `ch` (Python
`str.rstrip(ch)`). -/
def rstripChar (ch : Char) (l : Chars) : Chars :=
  (l.reverse.dropWhile (· == ch)).reverse

/-- Python `str.strip(ch)`: drop the character from both ends. -/
def stripBothChar (ch : Char) (l : Chars) : Chars :=
  lstripChar ch (rstripChar ch l)

/-- Python `str.strip()`: drop whitespace from both ends. -/
def pyStrip (l : Chars) : Chars :=
  ((l.dropWhile pyIsSpace).reverse.dropWhile pyIsSpace).reverse

/-- Python `str.split(sep)` for a single-character separator: splits at every
occurrence, keeping empty parts (`"".split(sep) == [""]`). -/
def splitChar (sep : Char) : Chars → List Chars
  | [] => [[]]
  | c :: rest =>
    if c = sep then [] :: splitChar sep rest
    else
      match splitChar sep rest with
      | [] => [[c]]
      | p :: ps => (c :: p) :: ps

/-- Numeric value of a list of decimal digit characters. -/
def digitsToNat (l : Chars) : Nat :=
  l.foldl (fun a c => a * 10 + (c.toNat - 48)) 0

/-- Python `int(s)` on the inputs CTY.DAT processing can produce: optional
surrounding whitespace, optional sign, then one or more decimal digits;
anything else raises `ValueError` (modelled as `none`). -/
def pyInt (l : Chars) : Option Int :=
  let t := pyStrip l
  match t with
  | '+' :: ds =>
    if ds ≠ [] ∧ ds.all Char.isDigit then some (digitsToNat ds) else none
  | '-' :: ds =>
    if ds ≠ [] ∧ ds.all Char.isDigit then some (-(digitsToNat ds : Int)) else none
  | ds =>
    if ds ≠ [] ∧ ds.all Char.isDigit then some (digitsToNat ds) else none

/-- Value of an unsigned decimal literal `ip ["." fp]` as an exact rational. -/
def decValue (ip fp : Chars) : Rat :=
  mkRat (digitsToNat ip * 10 ^ fp.length + digitsToNat fp) (10 ^ fp.length)

/-- Python `float(s)` on the decimal forms CTY.DAT processing can produce:
optional surrounding whitespace, optional sign, then `digits`, `digits.`,
`digits.digits` or `.digits`; anything else raises `ValueError` (modelled as
`none`).  The program never computes with these values beyond negation, so an
exact rational is a faithful model. -/
def pyFloat (l : Chars) : Option Rat :=
  let t := pyStrip l
  let body : Chars → Option Rat := fun b =>
    let ip := b.takeWhile Char.isDigit
    match b.dropWhile Char.isDigit with
    | [] => if ip ≠ [] then some (decValue ip []) else none
    | '.' :: fp =>
      if fp.all Char.isDigit ∧ (ip ≠ [] ∨ fp ≠ []) then some (decValue ip fp)
      else none
    | _ => none
  match t with
  | '+' :: b => body b
  | '-' :: b => (body b).map (- ·)
  | b => body b

/-- One normalized record of the dataset, mirroring the dict literal built in
`BigCty.import_dat`. -/
structure CtyRec where
  entity : Chars
  cq : Int
  itu : Int
  continent : Chars
  lat : Rat
  long : Rat
  tz : Rat
  len : Nat
  primary_pfx : Chars
  exact_match : Bool
deriving DecidableEq

/-- Python exceptions that `bigcty.py` can raise. -/
inductive PyErr where
  | keyError (k : Chars)
  | indexError
  | valueError
  | typeError
deriving DecidableEq

deriving instance DecidableEq for Except

/-- Insertion-ordered Python dict with `Chars` keys: `d[k] = v` replaces the
value in place when the key is present and appends otherwise. -/
def alInsert {α : Type} (d : List (Chars × α)) (k : Chars) (v : α) :
    List (Chars × α) :=
  if d.any (fun p => p.1 == k) then
    d.map (fun p => if p.1 == k then (k, v) else p)
  else d ++ [(k, v)]

/-- Python `k in d`. -/
def dictContains {α : Type} (d : List (Chars × α)) (k : Chars) : Bool :=
  d.any (fun p => p.1 == k)

/-- Python `d[k]` as an `Option` (`none` models `KeyError`). -/
def dictGet? {α : Type} (d : List (Chars × α)) (k : Chars) : Option α :=
  (d.find? (fun p => p.1 == k)).map (·.2)

/-- Character class of the mandatory pfx group of `regex_dat`:
`[a-zA-Z0-9/]`. -/
def pfxChar (c : Char) : Bool := c.isAlpha || c.isDigit || c == '/'

/-- Python `\w` on the ASCII characters CTY.DAT files contain. -/
def wordChar (c : Char) : Bool := c.isAlpha || c.isDigit || c == '_'

/-- The capture groups of one `regex_dat` match: `pfx` is the mandatory
prefix group, the rest are the optional bracketed groups (`cq`, `itu`, the
`latlong` pair, `continent`, `tz`), `none` when the group did not
participate. -/
structure DatMatch where
  pfx : Chars
  cq : Option Chars
  itu : Option Chars
  latlong : Option (Chars × Chars)
  continent : Option Chars
  tz : Option Chars
deriving DecidableEq

/-- Match an optional delimited group `opn run cls` (for `\((\d+)\)`,
`\[(\d+)\]`, `\x7b(\w+)\x7d`) at the head of `l`; on failure consume
nothing (the regex group is optional, so the engine skips it). -/
def tryDelimRun (opn cls : Char) (run : Char → Bool) (l : Chars) :
    Option Chars × Chars :=
  match l with
  | c :: r =>
    if c = opn then
      match r.takeWhile run, r.dropWhile run with
      | d :: ds, c' :: r' => if c' = cls then (some (d :: ds), r') else (none, l)
      | _, _ => (none, l)
    else (none, l)
  | [] => (none, l)

/-- Match `[+-]?\d+(?:\.\d+)?` (the escaped-dot decimal used for the `lat`
and `tz` groups) at the head of `l`, greedily, returning the matched text
and the rest.  Giving back the fractional part can never help the pattern
that follows (`/` or `~`, never `.`), so the greedy result is the regex
result. -/
def parseDecE (l : Chars) : Option (Chars × Chars) :=
  let (sgn, r) :=
    match l with
    | c :: r' => if c = '+' ∨ c = '-' then ([c], r') else (([] : Chars), l)
    | [] => (([] : Chars), l)
  match r.takeWhile Char.isDigit, r.dropWhile Char.isDigit with
  | [], _ => none
  | d :: ds, '.' :: r2 =>
    match r2.takeWhile Char.isDigit, r2.dropWhile Char.isDigit with
    | [], _ => some (sgn ++ d :: ds, '.' :: r2)
    | f :: fs, r3 => some (sgn ++ (d :: ds) ++ '.' :: f :: fs, r3)
  | d :: ds, r1 => some (sgn ++ d :: ds, r1)

/-- Match `[+-]?\d+(?:.\d+)?>` — the `long` group of `regex_dat`, whose dot
is *unescaped* in the source pattern (`.` matches any character) — followed
by the closing `>`.  Mirrors the regex engine's backtracking: the optional
`.\d+` part is tried greedily first, and dropped when `>` does not follow
it. -/
def parseLongGT (l : Chars) : Option (Chars × Chars) :=
  let (sgn, r) :=
    match l with
    | c :: r' => if c = '+' ∨ c = '-' then ([c], r') else (([] : Chars), l)
    | [] => (([] : Chars), l)
  match r.takeWhile Char.isDigit, r.dropWhile Char.isDigit with
  | [], _ => none
  | d :: ds, r1 =>
    let withOpt : Option (Chars × Chars) :=
      match r1 with
      | c :: q =>
        match q.takeWhile Char.isDigit, q.dropWhile Char.isDigit with
        | f :: fs, '>' :: q2 => some (sgn ++ (d :: ds) ++ c :: f :: fs, q2)
        | _, _ => none
      | [] => none
    match withOpt with
    | some x => some x
    | none =>
      match r1 with
      | '>' :: r2 => some (sgn ++ d :: ds, r2)
      | _ => none

/-- Match the optional `latlong` group `<lat\/long>` at the head of `l`;
on failure consume nothing. -/
def tryLatLong (l : Chars) : Option (Chars × Chars) × Chars :=
  match l with
  | '<' :: r =>
    match parseDecE r with
    | some (la, '/' :: r2) =>
      match parseLongGT r2 with
      | some (lo, r3) => (some (la, lo), r3)
      | none => (none, l)
    | _ => (none, l)
  | _ => (none, l)

/-- Match the optional `~tz~` group at the head of `l`; on failure consume
nothing. -/
def tryTz (l : Chars) : Option Chars × Chars :=
  match l with
  | '~' :: r =>
    match parseDecE r with
    | some (cap, '~' :: r2) => (some cap, r2)
    | _ => (none, l)
  | _ => (none, l)

/-- Body of a `regex_dat` match at a position whose first character is in
the prefix class: greedy prefix run, then the optional groups in the
pattern's order. -/
def matchCore (l : Chars) : DatMatch :=
  let pfx := l.takeWhile pfxChar
  let r0 := l.dropWhile pfxChar
  let (cq, r1) := tryDelimRun '(' ')' Char.isDigit r0
  let (itu, r2) := tryDelimRun '[' ']' Char.isDigit r1
  let (ll, r3) := tryLatLong r2
  let (cont, r4) := tryDelimRun '\x7b' '\x7d' wordChar r3
  let (tz, _) := tryTz r4
  { pfx := pfx, cq := cq, itu := itu, latlong := ll, continent := cont,
    tz := tz }

/-- Python `re.search(regex_dat, item)`: try the pattern at each position
left to right.  A position matches exactly when it starts with a prefix
character, or with `=` followed by a prefix character (the leading `=?`
with an empty prefix can never match). -/
def searchDat : Chars → Option DatMatch
  | [] => none
  | c :: rest =>
    if pfxChar c then some (matchCore (c :: rest))
    else if c = '=' then
      match rest with
      | c2 :: _ => if pfxChar c2 then some (matchCore rest) else searchDat rest
      | [] => none
    else searchDat rest

/-- Python `if match.group("itu"): data["itu"] = int(match.group("itu"))` —
`none` models the `ValueError` that `int` would raise. -/
def applyItu (d : CtyRec) (g : Option Chars) : Option CtyRec :=
  match g with
  | none => some d
  | some s => (pyInt s).map fun n => { d with itu := n }

/-- Python `if match.group("cq"): data["cq"] = int(match.group("cq"))`. -/
def applyCq (d : CtyRec) (g : Option Chars) : Option CtyRec :=
  match g with
  | none => some d
  | some s => (pyInt s).map fun n => { d with cq := n }

/-- Python `if match.group("latlong"): data["lat"] = ...; data["long"] = ...` —
`float` on the captured `long` text can raise `ValueError` because of the
unescaped dot in the pattern. -/
def applyLatLong (d : CtyRec) (g : Option (Chars × Chars)) : Option CtyRec :=
  match g with
  | none => some d
  | some (la, lo) =>
    match pyFloat la, pyFloat lo with
    | some x, some y => some { d with lat := x, long := y }
    | _, _ => none

/-- Python `if match.group("continent"): data["continent"] = ...`. -/
def applyCont (d : CtyRec) (g : Option Chars) : CtyRec :=
  match g with
  | none => d
  | some s => { d with continent := s }

/-- Python `if match.group("tz"): data["tz"] = -1 * float(match.group("tz"))`. -/
def applyTz (d : CtyRec) (g : Option Chars) : Option CtyRec :=
  match g with
  | none => some d
  | some s => (pyFloat s).map fun x => { d with tz := -x }

/-- The field replacements `import_dat` performs on the deep copy of the
primary record, in the source's order (itu, cq, lat/long, continent, tz);
`none` models an uncaught `ValueError` from `int`/`float`. -/
def applyMatch (base : CtyRec) (m : DatMatch) : Option CtyRec :=
  (applyItu base m.itu).bind fun d1 =>
  (applyCq d1 m.cq).bind fun d2 =>
  (applyLatLong d2 m.latlong).bind fun d3 =>
  applyTz (applyCont d3 m.continent) m.tz

/-- The record an override token derives from the primary record `base`:
the grammar substitutions of `applyMatch`, then
`if item.startswith("="): data["exact_match"] = True`. -/
def overrideRecord (base : CtyRec) (item : Chars) (m : DatMatch) :
    Option CtyRec :=
  (applyMatch base m).map fun d =>
    if item.head? = some '=' then { d with exact_match := true } else d

/-- Scanner state inside `import_dat`'s line loop: the accumulating
`cty_dict` and the `last` primary prefix (initially the empty string). -/
structure ParseSt where
  dict : List (Chars × CtyRec)
  last : Chars
deriving DecidableEq

/-- One override token of a continuation line (body of the
`for item in overrides` loop).  The raw token text is first tested for
membership in `cty_dict`; then `cty_dict[last]` is read (a `KeyError` when
absent, *before* the grammar is consulted); an unmatched token is skipped;
otherwise the derived record is stored under the extracted prefix. -/
def processToken (st : ParseSt) (item : Chars) : Except PyErr ParseSt :=
  if dictContains st.dict item then .ok st
  else
    match dictGet? st.dict st.last with
    | none => .error (.keyError st.last)
    | some base =>
      match searchDat item with
      | none => .ok st
      | some m =>
        match overrideRecord base item m with
        | none => .error .valueError
        | some d => .ok ⟨alInsert st.dict m.pfx d, st.last⟩

/-- The dict literal a header line builds once its segments are known:
`int` on the zone segments, `float` on the coordinate and timezone
segments (a `ValueError` aborts the parse), the timezone negated, `len`
and `primary_pfx` computed from the primary prefix `pfx`, and
`exact_match` false. -/
def mkHeaderFields (ent s1 s2 s3 s4 s5 s6 pfx : Chars) :
    Except PyErr (Chars × CtyRec) :=
  match pyInt s1, pyInt s2, pyFloat s4, pyFloat s5, pyFloat s6 with
  | some cq, some itu, some lat, some lo, some tz =>
    .ok (pfx,
      { entity := ent, cq := cq, itu := itu, continent := s3, lat := lat,
        long := lo, tz := -tz, len := pfx.length, primary_pfx := pfx,
        exact_match := false })
  | _, _, _, _, _ => .error .valueError

/-- A header line: split on `:`, strip each segment, detect the `*` marker
on segment 7 (strip it from the prefix and append the not-DXCC suffix to
the entity name), then build the record.  Too few segments or an empty
segment 7 raise `IndexError`.  Returns the key (the primary prefix) and
the record. -/
def mkHeaderRecord (t : Chars) : Except PyErr (Chars × CtyRec) :=
  match (splitChar ':' t).map pyStrip with
  | e :: s1 :: s2 :: s3 :: s4 :: s5 :: s6 :: s7 :: _ =>
    match s7 with
    | [] => .error .indexError
    | '*' :: r7 => mkHeaderFields (e ++ str " (not DXCC)") s1 s2 s3 s4 s5 s6 r7
    | c7 :: r7 => mkHeaderFields e s1 s2 s3 s4 s5 s6 (c7 :: r7)
  | _ => .error .indexError

/-- Dispatch of one (non-empty, already transformed) line of the scan loop:
alphabetic first character ⇒ header, whitespace first character ⇒
continuation (strip, drop trailing `;` then `,`, split on `,`, fold the
tokens), anything else ⇒ the line matches neither branch and is skipped. -/
def processLine (st : ParseSt) (t : Chars) : Except PyErr ParseSt :=
  match t with
  | [] => .ok st
  | c :: _ =>
    if c.isAlpha then
      match mkHeaderRecord t with
      | .error e => .error e
      | .ok (k, r) => .ok ⟨alInsert st.dict k r, k⟩
    else if pyIsSpace c then
      (splitChar ',' (rstripChar ',' (rstripChar ';' (pyStrip t)))).foldlM
        processToken st
    else .ok st

/-- Python `file.readline()` chunks of a text: pieces ending at each newline, the
newline kept, a final unterminated piece kept too. -/
def pyLines : Chars → List Chars
  | [] => []
  | c :: rest =>
    if c = '\n' then ['\n'] :: pyLines rest
    else
      match pyLines rest with
      | [] => [[c]]
      | p :: ps => (c :: p) :: ps

/-- The line transformation at the top of the loop:
`file.readline().rstrip("\r").strip(":")`. -/
def transformLine (l : Chars) : Chars :=
  stripBothChar ':' (rstripChar '\r' l)

/-- The `while True` scan loop of `import_dat`: stop at the first line whose
transform is empty (or at end of input), else process and continue.
Returns the accumulated `cty_dict` or the first uncaught exception. -/
def runLines : List Chars → ParseSt → Except PyErr (List (Chars × CtyRec))
  | [], st => .ok st.dict
  | l :: ls, st =>
    let t := transformLine l
    if t = [] then .ok st.dict
    else
      match processLine st t with
      | .error e => .error e
      | .ok st' => runLines ls st'

/-- Python `re.search(regex_version_entry, text)`: the first position where `VER`
is followed by at least eight digits; the capture is those eight digits. -/
def searchVer : Chars → Option Chars
  | 'V' :: 'E' :: 'R' :: rest =>
    if (rest.take 8).length = 8 ∧ (rest.take 8).all Char.isDigit then
      some (rest.take 8)
    else searchVer ('E' :: 'R' :: rest)
  | _ :: rest => searchVer rest
  | [] => none

/-- Source line `self._version = ver_match.group(1) if ver_match is not None else ""`. -/
def extractVersion (t : Chars) : Chars := (searchVer t).getD []

/-- The externally visible state of a `BigCty` instance: the prefix mapping
`_data` and the version stamp `_version` (`none` models Python `None`, which
`load` can store). -/
structure Dataset where
  data : List (Chars × CtyRec)
  version : Option Chars
deriving DecidableEq

/-- Method `BigCty.import_dat` on an instance in state `st` fed the raw text
`text`: the version stamp is assigned from the independent `re.search` pass
*before* the line scan; the scan builds a fresh dict which replaces `_data`
only after the loop finishes.  Returns the instance state after the call
together with the uncaught exception, if any. -/
def importDat (st : Dataset) (text : Chars) : Dataset × Option PyErr :=
  let ver := extractVersion text
  match runLines (pyLines text) ⟨[], []⟩ with
  | .ok d => (⟨d, some ver⟩, none)
  | .error e => (⟨st.data, some ver⟩, some e)

/-- A value of the persisted `cty.json` object: either one prefix record or
the version stamp (`none` models JSON `null`, i.e. Python `None`). -/
inductive PVal where
  | obj (r : CtyRec)
  | vstr (v : Option Chars)
deriving DecidableEq

/-- Method `BigCty.dump`: copy `_data`, set `datadump["version"] = self._version`
(replacing in place when the mapping already has that key, appending
otherwise), and serialise.  JSON round-trips every stored value exactly. -/
def dumpD (D : Dataset) : List (Chars × PVal) :=
  alInsert (D.data.map fun p => (p.1, PVal.obj p.2)) (str "version")
    (PVal.vstr D.version)

/-- Decode the non-version entries of a persisted object back into records;
`none` when an entry is not a record object (such a file would leave
`_data` holding a non-record value, which the `Dataset` model cannot
represent). -/
def decodeRecs : List (Chars × PVal) → Option (List (Chars × CtyRec))
  | [] => some []
  | (k, PVal.obj r) :: rest => (decodeRecs rest).map ((k, r) :: ·)
  | (_, PVal.vstr _) :: _ => none

/-- Method `BigCty.load`: `ctyjson.pop("version", None)` becomes `_version` (so a
file without the key stores Python `None`), the remaining entries become
`_data`. -/
def loadD (file : List (Chars × PVal)) : Option Dataset :=
  match (file.find? (fun p => p.1 == str "version")).map (·.2) with
  | some (PVal.obj _) => none
  | some (PVal.vstr v) =>
    (decodeRecs (file.filter (fun p => !(p.1 == str "version")))).map
      fun data => ⟨data, v⟩
  | none =>
    (decodeRecs (file.filter (fun p => !(p.1 == str "version")))).map
      fun data => ⟨data, none⟩

/-- Days of a month in the proleptic Gregorian calendar used by
`datetime`. -/
def daysInMonth (y m : Nat) : Nat :=
  if m = 2 then
    if (y % 4 = 0 ∧ y % 100 ≠ 0) ∨ y % 400 = 0 then 29 else 28
  else if m = 4 ∨ m = 6 ∨ m = 9 ∨ m = 11 then 30
  else 31

/-- Python `datetime.strptime(s, "%Y%m%d")` succeeds exactly on eight-digit
strings whose four-digit year is at least 1 and whose month and day form a
valid calendar date (the one-digit `%m`/`%d` alternatives always leave
unconverted trailing data in an eight-character string). -/
def validDate8 (s : Chars) : Bool :=
  s.length = 8 && s.all Char.isDigit &&
  (let y := digitsToNat (s.take 4)
   let m := digitsToNat ((s.drop 4).take 2)
   let d := digitsToNat (s.drop 6)
   1 ≤ y && 1 ≤ m && m ≤ 12 && 1 ≤ d && d ≤ daysInMonth y m)

/-- Python `strftime("%Y-%m-%d")` of a validated eight-digit stamp: the year
number (unpadded, as glibc prints `%Y`) and the stamp's own zero-padded
month and day digits. -/
def fmtDate8 (s : Chars) : Chars :=
  (Nat.repr (digitsToNat (s.take 4))).data ++
    '-' :: ((s.drop 4).take 2 ++ '-' :: s.drop 6)

/-- Method `BigCty.formatted_version`: format the stamp, return the all-zero
sentinel when `strptime` raises `ValueError` — but a stamp of Python `None`
(as `load` stores for a file without a version field) makes `strptime`
raise `TypeError`, which the `except ValueError` clause does not catch. -/
def formattedVersion (v : Option Chars) : Except PyErr Chars :=
  match v with
  | none => .error .typeError
  | some s =>
    if validDate8 s then .ok (fmtDate8 s) else .ok (str "0000-00-00")

/-- The spec's test header line. -/
def hdrLine : Chars := str "Test:1:2:NA:10.0:20.0:-5.0:XX:\n"

/-- The record the test header line produces. -/
def recXX : CtyRec :=
  ⟨str "Test", 1, 2, str "NA", 10, 20, 5, 2, str "XX", false⟩

/-- A fresh `BigCty` instance: empty mapping, version the empty string. -/
def freshCty : Dataset := ⟨[], some []⟩

-- ------------------------------------------------------------------
-- A couple of smoke tests for the embedding of the string primitives.

example : splitChar ':' (str "a:b::c") = [str "a", str "b", [], str "c"] := by
  decide

example : pyInt (str " 12 ") = some 12 := by decide

example : pyFloat (str "-5.0") = some (-5) := by decide

example : pyFloat (str "10.25") = some (mkRat 41 4) := by decide

example : stripBothChar ':' (str "::ab:c::") = str "ab:c" := by decide

example :
    searchDat (str "=YYZ(5)[37]") =
      some { pfx := str "YYZ", cq := some (str "5"), itu := some (str "37"),
             latlong := none, continent := none, tz := none } := by decide

example :
    searchDat (str "AB1<10.5/-20>~-3.5~") =
      some { pfx := str "AB1", cq := none, itu := none,
             latlong := some (str "10.5", str "-20"), continent := none,
             tz := some (str "-3.5") } := by decide

example : searchDat (str "!&-;") = none := by decide

example :
    searchDat (str "-XXA") =
      some { pfx := str "XXA", cq := none, itu := none, latlong := none,
             continent := none, tz := none } := by decide

example : (searchDat (str "A<1/2>3>")).map (·.latlong) =
    some (some (str "1", str "2>3")) := by decide

example : (searchDat (str "A<1/12a>")).map (·.latlong) = some none := by
  decide

example : (searchDat (str "A<12/123>45~")).map (fun m => (m.latlong, m.tz)) =
    some (some (str "12", str "123"), none) := by decide

example : (searchDat (str "==A")).map (·.pfx) = some (str "A") := by decide

example : extractVersion (str "xx VER20230615 yy") = str "20230615" := by
  decide

example : extractVersion (str "VER1234567") = [] := by decide

example : pyLines (str "ab\n\ncd") = [str "ab\n", str "\n", str "cd"] := by
  decide

example :
    importDat ⟨[], some []⟩
      (str "Test:1:2:NA:10.0:20.0:-5.0:XX:\n  XXA,XXB(3);\n") =
    (⟨[(str "XX",
        ⟨str "Test", 1, 2, str "NA", 10, 20, 5, 2, str "XX", false⟩),
       (str "XXA",
        ⟨str "Test", 1, 2, str "NA", 10, 20, 5, 2, str "XX", false⟩),
       (str "XXB",
        ⟨str "Test", 3, 2, str "NA", 10, 20, 5, 2, str "XX", false⟩)],
      some (str "")⟩, none) := by decide

example : formattedVersion (some (str "20230615")) = .ok (str "2023-06-15") :=
  by decide

example : formattedVersion (some (str "20231315")) = .ok (str "0000-00-00") :=
  by decide

example : formattedVersion (some (str "20240229")) = .ok (str "2024-02-29") :=
  by decide

example : formattedVersion (some (str "20230229")) = .ok (str "0000-00-00") :=
  by decide

example : formattedVersion (some []) = .ok (str "0000-00-00") := by decide

example :
    loadD (dumpD ⟨[(str "AA",
      ⟨str "Foo", 1, 2, str "NA", 1, 2, 3, 2, str "AA", false⟩)],
      some (str "20230615")⟩) =
    some ⟨[(str "AA",
      ⟨str "Foo", 1, 2, str "NA", 1, 2, 3, 2, str "AA", false⟩)],
      some (str "20230615")⟩ := by decide

-- ==================================================================
-- Claim theorems
-- ==================================================================

/-- C4 (counterexample): parsing the spec's header and continuation lines
does *not* give `XXA` a `cq` of `3`: the plain token `XXA` carries no
`(...)` group, so it inherits the header's `cq == 1`. -/
theorem C4_cq_counterexample :
    (dictGet?
        (importDat freshCty (hdrLine ++ str "  XXA,XXB(3);\n")).1.data
        (str "XXA")).map (·.cq) = some 1 ∧
      (some (1 : Int) ≠ some (3 : Int)) := by
  constructor
  · decide
  · decide

/-- C4 (amended): parsing the header `"Test:1:2:NA:10.0:20.0:-5.0:XX:"` and
continuation `"  XXA,XXB(3);"` succeeds and yields records for `XXA` and
`XXB`; `XXB` has `cq == 3` while `XXA` retains the inherited `cq == 1`, and
both retain `itu == 2`, `continent == "NA"`, `lat == 10.0`, `tz == 5.0`
(sign inverted from the source `-5.0`), `primary_pfx == "XX"` and
`len == 2`. -/
theorem C4_override_inherits :
    (importDat freshCty (hdrLine ++ str "  XXA,XXB(3);\n")).2 = none ∧
    dictGet? (importDat freshCty (hdrLine ++ str "  XXA,XXB(3);\n")).1.data
        (str "XXA") =
      some ⟨str "Test", 1, 2, str "NA", 10, 20, 5, 2, str "XX", false⟩ ∧
    dictGet? (importDat freshCty (hdrLine ++ str "  XXA,XXB(3);\n")).1.data
        (str "XXB") =
      some ⟨str "Test", 3, 2, str "NA", 10, 20, 5, 2, str "XX", false⟩ := by
  refine ⟨by decide, by decide, by decide⟩

/-- C1 (counterexample): two override tokens with the same extracted prefix
do *not* resolve first-wins.  After `"  XXA,XXA(5);"` under the test header
the stored record for `XXA` has `cq == 5`: the second token's raw text
`"XXA(5)"` is not a key of the mapping, so the membership guard passes and
its record *overwrites* the one the first token `"XXA"` stored (which had
`cq == 1`). -/
theorem C1_overwrite_counterexample :
    (dictGet?
        (importDat freshCty (hdrLine ++ str "  XXA,XXA(5);\n")).1.data
        (str "XXA")).map (·.cq) = some 5 ∧
      (some (5 : Int) ≠ some (1 : Int)) := by
  constructor
  · decide
  · decide

/-- C9 (counterexample): a plain override token does *not* always yield
`exact_match == false`.  After `"  =XX,YYZ;"` under the test header, the
token `=XX` overwrites the primary record with `exact_match == true`, and
the plain token `YYZ` deep-copies that overwritten record, so `YYZ` ends
with `exact_match == true`. -/
theorem C9_plain_token_counterexample :
    (dictGet?
        (importDat freshCty (hdrLine ++ str "  =XX,YYZ;\n")).1.data
        (str "YYZ")).map (·.exact_match) = some true ∧
      (some true ≠ some false) := by
  constructor
  · decide
  · decide

/-- C2 (counterexample): a fatal parse error does *not* leave the version
stamp unchanged.  Importing `"Foo:VER20230615\n"` into a fresh instance
fails with `IndexError` (the header line has too few segments), yet the
version stamp — assigned from the search pass *before* the line scan — has
already changed from `""` to `"20230615"`. -/
theorem C2_version_counterexample :
    importDat freshCty (str "Foo:VER20230615\n") =
      (⟨[], some (str "20230615")⟩, some PyErr.indexError) ∧
      (some (str "20230615") ≠ freshCty.version) := by
  constructor
  · decide
  · decide

/-- C3 (counterexample): a non-empty line whose first character is neither
alphabetic nor whitespace is *not* a fatal error: importing
`"?junk\n"` followed by a valid header succeeds with no error, the bad line
contributing nothing — the parse silently continued past it. -/
theorem C3_skip_counterexample :
    importDat freshCty (str "?junk\n" ++ hdrLine) =
      (⟨[(str "XX", recXX)], some []⟩, none) := by decide

/-- C3 (amended): a non-empty line whose first character is neither
alphabetic nor whitespace matches neither branch of the line dispatch and
is silently skipped — the scanner state is unchanged and no error is
raised, so the parse continues with the next line. -/
theorem C3_unclassifiable_skipped (st : ParseSt) (c : Char) (rest : Chars)
    (h1 : c.isAlpha = false) (h2 : pyIsSpace c = false) :
    processLine st (c :: rest) = .ok st := by
  simp [processLine, h1, h2]

/-- C3 witness: the skip theorem applied at the concrete line `"?junk"`. -/
theorem C3_unclassifiable_skipped_witness :
    processLine ⟨[], []⟩ (str "?junk") = .ok ⟨[], []⟩ :=
  C3_unclassifiable_skipped ⟨[], []⟩ '?' (str "junk") (by decide) (by decide)

/-- C2 (amended): `import_dat` always leaves the version stamp equal to the
stamp extracted from the *new* text (it is assigned before the line scan,
so it changes even when the parse then fails), while the prefix mapping is
unchanged whenever the parse fails; only on success is the mapping
replaced. -/
theorem C2_version_assignment (st : Dataset) (text : Chars) :
    (importDat st text).1.version = some (extractVersion text) ∧
      ((importDat st text).2.isSome = true →
        (importDat st text).1.data = st.data) := by
  unfold importDat
  cases h : runLines (pyLines text) ⟨[], []⟩ <;> simp [h]

/-- C2 witness: the assignment theorem applied at a concrete failing
import; the mapping is untouched while the version stamp moved. -/
theorem C2_version_assignment_witness :
    (importDat freshCty (str "Foo:VER20230615\n")).1.data = freshCty.data :=
  (C2_version_assignment freshCty (str "Foo:VER20230615\n")).2 (by decide)

/-- C1 (amended): the membership guard of the override loop compares the
raw token text with the existing keys.  A token whose entire text already
is a key adds or changes nothing; any other successfully processed token
either leaves the state unchanged (no grammar match) or stores its record
under the extracted prefix with `alInsert`, which *replaces* any record
already present at that key. -/
theorem C1_raw_text_guard (st : ParseSt) (item : Chars) (st' : ParseSt) :
    (dictContains st.dict item = true → processToken st item = .ok st) ∧
      (dictContains st.dict item = false → processToken st item = .ok st' →
        st' = st ∨ ∃ m d, searchDat item = some m ∧
          st'.dict = alInsert st.dict m.pfx d ∧ st'.last = st.last) := by
  constructor
  · intro h
    simp [processToken, h]
  · intro h hok
    simp only [processToken, h, Bool.false_eq_true, if_false] at hok
    rcases hg : dictGet? st.dict st.last with _ | base
    · simp [hg] at hok
    · rcases hs : searchDat item with _ | m
      · simp only [hg, hs] at hok
        exact Or.inl (Except.ok.inj hok).symm
      · rcases ho : overrideRecord base item m with _ | d
        · simp [hg, hs, ho] at hok
        · simp only [hg, hs, ho] at hok
          refine Or.inr ⟨m, d, rfl, ?_, ?_⟩ <;> rw [← (Except.ok.inj hok)]

/-- C1 witness: the guard theorem applied at a state already holding key
`XXA` and the raw token `"XXA"`: nothing changes. -/
theorem C1_raw_text_guard_witness :
    processToken ⟨[(str "XXA", recXX)], str "XX"⟩ (str "XXA") =
      .ok ⟨[(str "XXA", recXX)], str "XX"⟩ :=
  (C1_raw_text_guard ⟨[(str "XXA", recXX)], str "XX"⟩ (str "XXA")
    ⟨[(str "XXA", recXX)], str "XX"⟩).1 (by decide)

/-- No override token with no prefix-class character anywhere can match
`regex_dat`: every search position needs a prefix character at it or right
after a leading `=`. -/
theorem searchDat_eq_none (item : Chars)
    (h : ∀ c ∈ item, pfxChar c = false) : searchDat item = none := by
  induction item with
  | nil => rfl
  | cons c rest ih =>
    have hc : pfxChar c = false := h c (List.mem_cons_self c rest)
    have hr : ∀ x ∈ rest, pfxChar x = false :=
      fun x hx => h x (List.mem_cons_of_mem c hx)
    rw [searchDat.eq_def]
    simp only [hc, Bool.false_eq_true, if_false]
    by_cases he : c = '='
    · simp only [he, if_true]
      cases rest with
      | nil => rfl
      | cons c2 r2 =>
        have h2 : pfxChar c2 = false := hr c2 (List.mem_cons_self c2 r2)
        simp only [h2, Bool.false_eq_true, if_false]
        exact ih hr
    · simp only [he, if_false]
      exact ih hr

/-- C5 (confirmed): an override token without a single
alphanumeric-or-slash character — one whose mandatory prefix group can
match nowhere — is dropped: provided the current primary prefix is bound
in the mapping (so the preceding deep copy does not raise), the token
leaves the scanner state exactly as it was and the loop continues without
error. -/
theorem C5_unmatched_token_skipped (st : ParseSt) (item : Chars)
    (base : CtyRec) (hlast : dictGet? st.dict st.last = some base)
    (h : ∀ c ∈ item, pfxChar c = false) :
    processToken st item = .ok st := by
  cases hc : dictContains st.dict item <;>
    simp [processToken, hc, hlast, searchDat_eq_none item h]

/-- C5 witness: the skip theorem applied to the concrete garbage token
`"!&;"` under the test header's state. -/
theorem C5_unmatched_token_skipped_witness :
    processToken ⟨[(str "XX", recXX)], str "XX"⟩ (str "!&;") =
      .ok ⟨[(str "XX", recXX)], str "XX"⟩ :=
  C5_unmatched_token_skipped ⟨[(str "XX", recXX)], str "XX"⟩ (str "!&;")
    recXX (by decide) (by decide)

/-- Function `applyItu` never touches `primary_pfx`, `len` or `exact_match`. -/
theorem applyItu_frame {d d' : CtyRec} {g : Option Chars}
    (h : applyItu d g = some d') :
    d'.primary_pfx = d.primary_pfx ∧ d'.len = d.len ∧
      d'.exact_match = d.exact_match := by
  cases g with
  | none => cases h; exact ⟨rfl, rfl, rfl⟩
  | some s =>
    simp only [applyItu] at h
    cases hp : pyInt s with
    | none => simp [hp] at h
    | some n => rw [hp] at h; cases h; exact ⟨rfl, rfl, rfl⟩

/-- Function `applyCq` never touches `primary_pfx`, `len` or `exact_match`. -/
theorem applyCq_frame {d d' : CtyRec} {g : Option Chars}
    (h : applyCq d g = some d') :
    d'.primary_pfx = d.primary_pfx ∧ d'.len = d.len ∧
      d'.exact_match = d.exact_match := by
  cases g with
  | none => cases h; exact ⟨rfl, rfl, rfl⟩
  | some s =>
    simp only [applyCq] at h
    cases hp : pyInt s with
    | none => simp [hp] at h
    | some n => rw [hp] at h; cases h; exact ⟨rfl, rfl, rfl⟩

/-- Function `applyLatLong` never touches `primary_pfx`, `len` or `exact_match`. -/
theorem applyLatLong_frame {d d' : CtyRec} {g : Option (Chars × Chars)}
    (h : applyLatLong d g = some d') :
    d'.primary_pfx = d.primary_pfx ∧ d'.len = d.len ∧
      d'.exact_match = d.exact_match := by
  cases g with
  | none => cases h; exact ⟨rfl, rfl, rfl⟩
  | some p =>
    obtain ⟨la, lo⟩ := p
    simp only [applyLatLong] at h
    cases h1 : pyFloat la with
    | none => simp [h1] at h
    | some x =>
      cases h2 : pyFloat lo with
      | none => simp [h1, h2] at h
      | some y => rw [h1, h2] at h; cases h; exact ⟨rfl, rfl, rfl⟩

/-- Function `applyCont` never touches `primary_pfx`, `len` or `exact_match`. -/
theorem applyCont_frame (d : CtyRec) (g : Option Chars) :
    (applyCont d g).primary_pfx = d.primary_pfx ∧
      (applyCont d g).len = d.len ∧
      (applyCont d g).exact_match = d.exact_match := by
  cases g <;> exact ⟨rfl, rfl, rfl⟩

/-- Function `applyTz` never touches `primary_pfx`, `len` or `exact_match`. -/
theorem applyTz_frame {d d' : CtyRec} {g : Option Chars}
    (h : applyTz d g = some d') :
    d'.primary_pfx = d.primary_pfx ∧ d'.len = d.len ∧
      d'.exact_match = d.exact_match := by
  cases g with
  | none => cases h; exact ⟨rfl, rfl, rfl⟩
  | some s =>
    simp only [applyTz] at h
    cases hp : pyFloat s with
    | none => simp [hp] at h
    | some x => rw [hp] at h; cases h; exact ⟨rfl, rfl, rfl⟩

/-- The whole grammar-substitution step never touches `primary_pfx`, `len`
or `exact_match`. -/
theorem applyMatch_frame {base : CtyRec} {m : DatMatch} {r : CtyRec}
    (h : applyMatch base m = some r) :
    r.primary_pfx = base.primary_pfx ∧ r.len = base.len ∧
      r.exact_match = base.exact_match := by
  unfold applyMatch at h
  cases h1 : applyItu base m.itu with
  | none => rw [h1] at h; simp at h
  | some d1 =>
    rw [h1, Option.some_bind] at h
    cases h2 : applyCq d1 m.cq with
    | none => rw [h2] at h; simp at h
    | some d2 =>
      rw [h2, Option.some_bind] at h
      cases h3 : applyLatLong d2 m.latlong with
      | none => rw [h3] at h; simp at h
      | some d3 =>
        rw [h3, Option.some_bind] at h
        obtain ⟨ha, hb, hc⟩ := applyTz_frame h
        obtain ⟨ca, cb, cc⟩ := applyCont_frame d3 m.continent
        obtain ⟨a3, b3, c3⟩ := applyLatLong_frame h3
        obtain ⟨a2, b2, c2⟩ := applyCq_frame h2
        obtain ⟨a1, b1, c1⟩ := applyItu_frame h1
        refine ⟨?_, ?_, ?_⟩ <;> simp_all

/-- C8 (confirmed): a header-defined record carries its own key as
`primary_pfx` and that key's character count as `len`; and the
override-derivation step copies both fields verbatim from the primary
record it starts from — the optional grammar groups can replace only the
other fields. -/
theorem C8_primary_and_len_frame (t k : Chars) (r : CtyRec) (base : CtyRec)
    (item : Chars) (m : DatMatch) (r' : CtyRec) :
    (mkHeaderRecord t = .ok (k, r) →
      r.primary_pfx = k ∧ r.len = k.length) ∧
    (overrideRecord base item m = some r' →
      r'.primary_pfx = base.primary_pfx ∧ r'.len = base.len) := by
  constructor
  · intro h
    unfold mkHeaderRecord at h
    repeat' split at h
    all_goals first
      | exact Except.noConfusion h
      | (unfold mkHeaderFields at h
         split at h
         · injection h with h'
           injection h' with hk hr
           subst hk; subst hr
           exact ⟨rfl, rfl⟩
         · exact Except.noConfusion h)
  · intro h
    simp only [overrideRecord] at h
    cases ha : applyMatch base m with
    | none => rw [ha] at h; simp at h
    | some d =>
      rw [ha, Option.map_some'] at h
      obtain ⟨pa, pb, _⟩ := applyMatch_frame ha
      cases h
      by_cases hi : item.head? = some '='
      · simp only [hi, if_true]
        exact ⟨pa, pb⟩
      · simp only [hi, if_false]
        exact ⟨pa, pb⟩

/-- C8 witness: the frame theorem applied to the concrete test header
line. -/
theorem C8_primary_and_len_frame_witness :
    mkHeaderRecord (str "Test:1:2:NA:10.0:20.0:-5.0:XX") =
        .ok (str "XX", recXX) ∧
      recXX.primary_pfx = str "XX" ∧ recXX.len = (str "XX").length :=
  ⟨by decide,
   (C8_primary_and_len_frame (str "Test:1:2:NA:10.0:20.0:-5.0:XX")
       (str "XX") recXX recXX [] ⟨[], none, none, none, none, none⟩
       recXX).1 (by decide)⟩

/-- C9 (amended): an override token starting with `=` yields a derived
record with `exact_match == true`; a plain token yields `exact_match`
*inherited* from the record currently stored under the primary key (false
unless that record was itself replaced by an `=`-override); header-defined
records are built with `exact_match == false`. -/
theorem C9_exact_match_flag (base : CtyRec) (item : Chars) (m : DatMatch)
    (r : CtyRec) (t k : Chars) (hrec : CtyRec) :
    (overrideRecord base item m = some r →
      (item.head? = some '=' → r.exact_match = true) ∧
      (item.head? ≠ some '=' → r.exact_match = base.exact_match)) ∧
    (mkHeaderRecord t = .ok (k, hrec) → hrec.exact_match = false) := by
  constructor
  · intro h
    simp only [overrideRecord] at h
    cases ha : applyMatch base m with
    | none => rw [ha] at h; simp at h
    | some d =>
      rw [ha, Option.map_some'] at h
      obtain ⟨_, _, pc⟩ := applyMatch_frame ha
      cases h
      constructor
      · intro hi; simp [hi]
      · intro hi; simp [hi, pc]
  · intro h
    unfold mkHeaderRecord at h
    repeat' split at h
    all_goals first
      | exact Except.noConfusion h
      | (unfold mkHeaderFields at h
         split at h
         · injection h with h'
           injection h' with hk hr2
           subst hr2
           rfl
         · exact Except.noConfusion h)

/-- C9 witness: the flag theorem applied to the concrete token `"=YY"`
over the test header record. -/
theorem C9_exact_match_flag_witness :
    ({ recXX with exact_match := true } : CtyRec).exact_match = true :=
  ((C9_exact_match_flag recXX (str "=YY")
      ⟨str "YY", none, none, none, none, none⟩
      { recXX with exact_match := true } [] [] recXX).1
    (by decide)).1 (by decide)

/-- Python whitespace is never alphabetic, so a continuation line can never
be taken for a header line. -/
theorem pyIsSpace_not_alpha (c : Char) (h : pyIsSpace c = true) :
    c.isAlpha = false := by
  simp only [pyIsSpace, Bool.or_eq_true, beq_iff_eq] at h
  rcases h with ((((h | h) | h) | h) | h) | h <;> subst h <;> decide

/-- Python `str.split` always returns at least one piece. -/
theorem splitChar_ne_nil (sep : Char) (l : Chars) : splitChar sep l ≠ [] := by
  cases l with
  | nil => simp [splitChar]
  | cons c rest =>
    simp only [splitChar]
    split
    · simp
    · split <;> simp

/-- C10 (confirmed): when the first scanned line is non-empty (after the
carriage-return/colon stripping) and starts with whitespace, `import_dat`
dies with a `KeyError` on the empty string: the continuation branch looks up `cty_dict[last]`
with `last` still the initial empty string, before even consulting the
grammar — there is no guard for a continuation line before any header. -/
theorem C10_keyerror_before_header (st : Dataset) (text : Chars)
    (l0 : Chars) (ls : List Chars) (c : Char) (r : Chars)
    (hl : pyLines text = l0 :: ls) (ht : transformLine l0 = c :: r)
    (hs : pyIsSpace c = true) :
    importDat st text =
      (⟨st.data, some (extractVersion text)⟩, some (PyErr.keyError [])) := by
  have ha : c.isAlpha = false := pyIsSpace_not_alpha c hs
  have hproc : processLine ⟨[], []⟩ (c :: r) = .error (PyErr.keyError []) := by
    simp only [processLine, ha, Bool.false_eq_true, if_false, hs, if_true]
    obtain ⟨a, as, hsplit⟩ :=
      List.exists_cons_of_ne_nil
        (splitChar_ne_nil ',' (rstripChar ',' (rstripChar ';' (pyStrip (c :: r)))))
    rw [hsplit, List.foldlM_cons]
    have hstep : processToken ⟨[], []⟩ a = .error (PyErr.keyError []) := rfl
    rw [hstep]
    rfl
  have hrun : runLines (l0 :: ls) ⟨[], []⟩ = .error (PyErr.keyError []) := by
    simp [runLines, ht, hproc]
  unfold importDat
  rw [hl, hrun]

/-- C10 witness: the theorem applied to the concrete text `"  YYZ\n"`. -/
theorem C10_keyerror_before_header_witness :
    importDat freshCty (str "  YYZ\n") =
      (⟨freshCty.data, some (extractVersion (str "  YYZ\n"))⟩,
        some (PyErr.keyError [])) :=
  C10_keyerror_before_header freshCty (str "  YYZ\n") (str "  YYZ\n") []
    ' ' (str " YYZ\n") (by decide) (by decide) (by decide)

/-- In the dumped object of a dataset without a `"version"` data key, the
`"version"` entry appended by `dump` is the first (and only) one `load`'s
pop finds. -/
theorem find?_dump_aux (l : List (Chars × CtyRec)) (ver : Option Chars)
    (h : l.any (fun p => p.1 == str "version") = false) :
    ((l.map fun p => (p.1, PVal.obj p.2)) ++
        [(str "version", PVal.vstr ver)]).find?
        (fun p => p.1 == str "version") =
      some (str "version", PVal.vstr ver) := by
  induction l with
  | nil => simp [List.find?]
  | cons a t ih =>
    rw [List.any_cons, Bool.or_eq_false_iff] at h
    obtain ⟨h1, h2⟩ := h
    simp only [List.map_cons, List.cons_append, List.find?, h1]
    exact ih h2

/-- Removing the `"version"` key from the dumped object of a dataset
without a `"version"` data key leaves exactly the record entries. -/
theorem filter_dump_aux (l : List (Chars × CtyRec)) (ver : Option Chars)
    (h : l.any (fun p => p.1 == str "version") = false) :
    ((l.map fun p => (p.1, PVal.obj p.2)) ++
        [(str "version", PVal.vstr ver)]).filter
        (fun p => !(p.1 == str "version")) =
      l.map fun p => (p.1, PVal.obj p.2) := by
  induction l with
  | nil => simp [List.filter]
  | cons a t ih =>
    rw [List.any_cons, Bool.or_eq_false_iff] at h
    obtain ⟨h1, h2⟩ := h
    simp only [List.map_cons, List.cons_append, List.filter, h1,
      Bool.not_false]
    exact congrArg (List.cons (a.1, PVal.obj a.2)) (ih h2)

/-- Decoding the record entries of a dumped dataset restores the original
association list. -/
theorem decodeRecs_map (l : List (Chars × CtyRec)) :
    decodeRecs (l.map fun p => (p.1, PVal.obj p.2)) = some l := by
  induction l with
  | nil => rfl
  | cons a t ih => simp [List.map_cons, decodeRecs, ih]

/-- Mapping the records of the dataset into persisted values does not
change which keys are present. -/
theorem any_map_key (l : List (Chars × CtyRec)) :
    ((l.map fun p => (p.1, PVal.obj p.2)).any
        (fun p => p.1 == str "version")) =
      l.any (fun p => p.1 == str "version") := by
  induction l with
  | nil => rfl
  | cons a t ih => simp only [List.map_cons, List.any_cons, ih]

/-- C7 (amended): for every dataset whose mapping does not itself use the
key `"version"`, dumping and loading reproduces the dataset exactly — the
same keys in the same order, the same records, the same version stamp. -/
theorem C7_roundtrip (D : Dataset)
    (h : dictContains D.data (str "version") = false) :
    loadD (dumpD D) = some D := by
  obtain ⟨data, ver⟩ := D
  have hany : (data.map fun p => (p.1, PVal.obj p.2)).any
      (fun p => p.1 == str "version") = false := by
    rw [any_map_key]
    exact h
  unfold dumpD alInsert
  simp only [hany, Bool.false_eq_true, if_false]
  unfold loadD
  rw [find?_dump_aux data ver h, filter_dump_aux data ver h]
  simp [decodeRecs_map]

/-- C7 witness: the round-trip theorem applied to a concrete one-record
dataset. -/
theorem C7_roundtrip_witness :
    loadD (dumpD ⟨[(str "AA", recXX)], some (str "20230615")⟩) =
      some ⟨[(str "AA", recXX)], some (str "20230615")⟩ :=
  C7_roundtrip ⟨[(str "AA", recXX)], some (str "20230615")⟩ (by decide)

/-- C7 (counterexample): a dataset holding the prefix key `"version"` —
reachable by importing a continuation override token `version` — does not
round-trip: `dump` overwrites that entry with the version stamp, so `load`
returns a dataset that lost the record. -/
theorem C7_roundtrip_counterexample :
    dictContains
        (importDat freshCty
          (str "Foo:1:2:NA:1.0:2.0:3.0:AA:\n  version,=VER20230615;\n")).1.data
        (str "version") = true ∧
      loadD (dumpD
          (importDat freshCty
            (str "Foo:1:2:NA:1.0:2.0:3.0:AA:\n  version,=VER20230615;\n")).1) ≠
        some (importDat freshCty
          (str "Foo:1:2:NA:1.0:2.0:3.0:AA:\n  version,=VER20230615;\n")).1 := by
  constructor
  · decide
  · decide

/-- C6 (evaluation): importing text containing `VER20230615` stores the
stamp `"20230615"` and `formatted_version` renders `"2023-06-15"`; an empty
stamp or an invalid date yields the sentinel `"0000-00-00"`; but a dataset
loaded from a persisted file with no version field stores Python `None`,
on which `formatted_version` raises an uncaught `TypeError` instead of
returning the sentinel. -/
theorem C6_formatted_version_behavior :
    (importDat freshCty
        (str "Foo:1:2:NA:1.0:2.0:3.0:AA:\n  =VER20230615;\n")).1.version =
      some (str "20230615") ∧
    formattedVersion (some (str "20230615")) = .ok (str "2023-06-15") ∧
    formattedVersion (some []) = .ok (str "0000-00-00") ∧
    formattedVersion (some (str "20231315")) = .ok (str "0000-00-00") ∧
    loadD [(str "AA", PVal.obj recXX)] = some ⟨[(str "AA", recXX)], none⟩ ∧
    formattedVersion none = .error PyErr.typeError := by
  refine ⟨by decide, by decide, by decide, by decide, by decide, by decide⟩
